import Mathlib

/-!
Verification development for the continuous-verification engine
(`cli/cv/verifier.py` and `cli/cv/models.py`).

The Python code is shallowly embedded:
* Python/JSON dynamic values are the inductive `Val`; Python numbers keep the
  int/float distinction; floats are modelled as rationals (no claim here
  depends on IEEE rounding).
* External collaborators are oracles bundled in `Env`: `time` is the stream of
  values returned by successive `time.time()` calls, `respond` is the HTTP
  transport (`Except` = raised exception), and `find` is the jsonpath library's
  `find` (list of matches in document order).
* Raised exceptions are `Except.error` carrying the message string.
* `time.sleep` only affects the clock through the next `time` observation, so
  it needs no explicit model; the while-loop gets a fuel parameter and returns
  `none` when the fuel is exhausted before the loop terminates.
-/

namespace CV

/-- Python/JSON dynamic values. -/
inductive Val where
  | null
  | bool (b : Bool)
  | int (n : Int)
  | float (q : ℚ)
  | str (s : String)
  | list (xs : List Val)
  | dict (xs : List (String × Val))

/-- The type of `ThresholdEvaluator.value` (`int | float | str` in models.py). -/
inductive TVal where
  | int (n : Int)
  | float (q : ℚ)
  | str (s : String)
deriving DecidableEq

/-- Rendering of a float. Floats with integral value render as Python prints
them (`5.0`); rendering of non-integral rationals is abbreviated (no claim
depends on it). -/
def floatStr (q : ℚ) : String :=
  if q.den = 1 then toString q.num ++ ".0" else toString q

mutual

/-- Python `repr` on JSON-like values (used inside containers and for
f-string interpolation of dicts/lists). -/
def pyRepr : Val → String
  | Val.null => "None"
  | Val.bool true => "True"
  | Val.bool false => "False"
  | Val.int n => toString n
  | Val.float q => floatStr q
  | Val.str s => "'" ++ s ++ "'"
  | Val.list xs => "[" ++ String.intercalate ", " (pyReprList xs) ++ "]"
  | Val.dict xs => "\x7b" ++ String.intercalate ", " (pyReprPairs xs) ++ "\x7d"

def pyReprList : List Val → List String
  | [] => []
  | v :: vs => pyRepr v :: pyReprList vs

def pyReprPairs : List (String × Val) → List String
  | [] => []
  | (k, v) :: vs => ("'" ++ k ++ "': " ++ pyRepr v) :: pyReprPairs vs

end

/-- Python `str` on JSON-like values. -/
def pyStr : Val → String
  | Val.null => "None"
  | Val.bool true => "True"
  | Val.bool false => "False"
  | Val.int n => toString n
  | Val.float q => floatStr q
  | Val.str s => s
  | Val.list xs => pyRepr (Val.list xs)
  | Val.dict xs => pyRepr (Val.dict xs)

/-- Python `str` of a `ThresholdEvaluator.value`. -/
def tvalStr : TVal → String
  | TVal.int n => toString n
  | TVal.float q => floatStr q
  | TVal.str s => s

/-- ASCII lower-casing of one character (model of `str.lower` per character;
the configuration strings relevant here are ASCII). -/
def lowerChar (c : Char) : Char :=
  if 'A' ≤ c ∧ c ≤ 'Z' then Char.ofNat (c.toNat + 32) else c

/-- Model of Python `str.lower`. -/
def pyLower (s : String) : String := String.mk (s.data.map lowerChar)

/-- Model of the whitespace stripping `float(str)` performs. -/
def pyStrip (s : String) : String :=
  String.mk (((s.data.dropWhile Char.isWhitespace).reverse.dropWhile
    Char.isWhitespace).reverse)

/-- Value of a digit string (`foldl` over decimal digits). -/
def digitsVal (l : List Char) : Nat :=
  l.foldl (fun a c => 10 * a + (c.toNat - 48)) 0

/-- Model of Python `float(s)` on strings: optional sign, decimal digits with
at most one point (exponents/`inf`/`nan` are not modelled; no claim depends on
them). `none` models the `ValueError` raised on a non-numeric string. -/
def parseFloat? (s : String) : Option ℚ :=
  let l0 := (pyStrip s).data
  let sl : ℚ × List Char :=
    match l0 with
    | '-' :: rest => (-1, rest)
    | '+' :: rest => (1, rest)
    | _ => (1, l0)
  let sgn := sl.1
  let l := sl.2
  let ip := l.takeWhile (fun c => !(c == '.'))
  let rest := l.dropWhile (fun c => !(c == '.'))
  match rest with
  | [] =>
    if ip ≠ [] ∧ ip.all Char.isDigit then some (sgn * (digitsVal ip : ℚ))
    else Option.none
  | _ :: fp =>
    if fp.any (fun c => c == '.') then Option.none
    else if (ip ≠ [] ∨ fp ≠ []) ∧ ip.all Char.isDigit ∧ fp.all Char.isDigit then
      some (sgn * ((digitsVal ip : ℚ) + (digitsVal fp : ℚ) / (10 : ℚ) ^ fp.length))
    else Option.none

/-- Model of Python `float(value)`: `none` models the `ValueError`/`TypeError`
raised when the value is not convertible. -/
def pyFloat? : Val → Option ℚ
  | Val.int n => some (n : ℚ)
  | Val.float q => some q
  | Val.bool b => some (if b then 1 else 0)
  | Val.str s => parseFloat? s
  | _ => Option.none

/-- Python truthiness (`bool(value)`) on JSON-like values. -/
def truthy : Val → Bool
  | Val.null => false
  | Val.bool b => b
  | Val.int n => decide (n ≠ 0)
  | Val.float q => decide (q ≠ 0)
  | Val.str s => decide (s ≠ "")
  | Val.list xs => !xs.isEmpty
  | Val.dict xs => !xs.isEmpty

/-- Model of `models.ExtractConfig.type` (`Literal["number","string","boolean","json"]`). -/
inductive ExType where
  | number
  | string
  | boolean
  | json
deriving DecidableEq

def tyStr : ExType → String
  | ExType.number => "number"
  | ExType.string => "string"
  | ExType.boolean => "boolean"
  | ExType.json => "json"

/-- Model of `models.ThresholdEvaluator.operator`. -/
inductive Op where
  | lt
  | gt
  | le
  | ge
  | eq
  | ne
deriving DecidableEq

def opStr : Op → String
  | Op.lt => "<"
  | Op.gt => ">"
  | Op.le => "<="
  | Op.ge => ">="
  | Op.eq => "=="
  | Op.ne => "!="

/-- Model of `models.ExtractConfig`. `default = Val.null` encodes Python `None`
(no default configured), matching the `default is not None` test in the code. -/
structure ExtractConfig where
  path : String
  type : ExType
  default : Val

/-- Model of `models.ThresholdEvaluator`. -/
structure ThresholdEvaluator where
  operator : Op
  value : TVal

/-- Model of `models.Check` (the query descriptor is consumed by the transport oracle
and therefore not part of the core state). -/
structure Check where
  name : String
  extract : ExtractConfig
  evaluate : ThresholdEvaluator

/-- Model of `models.EvaluationMode`. -/
inductive EvaluationMode where
  | ALL_PASS
  | ANY_PASS
  | THRESHOLD
deriving DecidableEq

/-- Model of `models.EvaluationConfig`. -/
structure EvaluationConfig where
  mode : EvaluationMode
  min_passed : Option Int

/-- Model of `models.OutputConfig` (the report format does not reach the core). -/
structure OutputConfig where
  include_details : Bool

/-- Model of `models.VerificationConfig`, restricted to the fields the engine reads. -/
structure VerificationConfig where
  checks : List Check
  evaluation : EvaluationConfig
  output : OutputConfig
  poll_interval : Int
  timeout : Int

/-- Model of `models.CheckResult`. `value = Val.null` encodes Python `None`; the
`datetime.now()` timestamp is omitted (no claim mentions it). -/
structure CheckResult where
  check_name : String
  success : Bool
  value : Val
  expected : Option String
  message : String
  poll_number : Nat

/-- Model of `models.VerificationStatus`. -/
inductive VerificationStatus where
  | PASSED
  | FAILED
  | TIMEOUT
deriving DecidableEq

/-- Model of `models.VerificationResult`. -/
structure VerificationResult where
  status : VerificationStatus
  checks_passed : Nat
  checks_failed : Nat
  total_polls : Nat
  duration : Int
  detailed_results : List CheckResult
  failure_reason : Option String

/-- The engine's external collaborators: `time n` is the value returned by the
`n`-th call to `time.time()` (modelled at whole-second resolution, so the
`int(...)` truncations the source applies to time differences are the
identity); `respond p i` is the transport's answer for check index `i` of poll
`p`; `find path doc` is the jsonpath library's list of matches in document
order. -/
structure Env where
  time : Nat → Int
  respond : Nat → Nat → Except String Val
  find : String → Val → List Val

/-- Model of `Verifier._extract_value`. The inner `ValueError` raised on zero matches
is caught by the function's own `except` clause and re-wrapped, so the string
below is the wrapped message. -/
def extract_value (find : String → Val → List Val) (data : Val) (path : String) :
    Except String Val :=
  match find path data with
  | [] => Except.error ("Failed to extract value using JSONPath '" ++
      (path ++ ("': JSONPath '" ++ (path ++
      ("' found no matches in response: " ++ pyStr data)))))
  | m :: _ => Except.ok m

/-- The `try` body of `Verifier._convert_type` (everything before the
`except (ValueError, TypeError)` clause). The unknown-type branch is
unreachable because `ExtractConfig.type` is a closed literal type. -/
def convertAttempt (value : Val) (ty : ExType) : Except String Val :=
  match ty with
  | ExType.number =>
    match pyFloat? value with
    | some q => Except.ok (Val.float q)
    | Option.none =>
      Except.error ("could not convert to float: '" ++ pyStr value ++ "'")
  | ExType.string => Except.ok (Val.str (pyStr value))
  | ExType.boolean =>
    match value with
    | Val.bool b => Except.ok (Val.bool b)
    | Val.str s => Except.ok (Val.bool
        (!(pyLower s == "false" || pyLower s == "0" || pyLower s == "")))
    | v => Except.ok (Val.bool (truthy v))
  | ExType.json => Except.ok value

/-- Model of `Verifier._convert_type`: the `try` body plus the
`except (ValueError, TypeError)` handler (`default is not None` → return the
default, else raise). -/
def convert_type (value : Val) (ty : ExType) (dflt : Val) : Except String Val :=
  match convertAttempt value ty with
  | Except.ok v => Except.ok v
  | Except.error _ =>
    match dflt with
    | Val.null => Except.error ("Cannot convert '" ++ pyStr value ++ "' to " ++
        tyStr ty ++ " and no default provided")
    | d => Except.ok d

/-- Numeric view of a value for comparison (Python treats `bool` as `int`). -/
def valNum? : Val → Option ℚ
  | Val.bool b => some (if b then 1 else 0)
  | Val.int n => some (n : ℚ)
  | Val.float q => some q
  | _ => Option.none

/-- Numeric view of an evaluator comparison value. -/
def tvalNum? : TVal → Option ℚ
  | TVal.int n => some (n : ℚ)
  | TVal.float q => some q
  | TVal.str _ => Option.none

/-- Python `value < expected` for the types reachable here (numbers compare
numerically, strings lexicographically, anything else raises `TypeError`). -/
def ltVT (v : Val) (t : TVal) : Except String Bool :=
  match valNum? v, tvalNum? t with
  | some x, some y => Except.ok (decide (x < y))
  | _, _ =>
    match v, t with
    | Val.str s, TVal.str u => Except.ok (decide (s < u))
    | _, _ => Except.error "'<' not supported between instances"

/-- Python `value > expected`. -/
def gtVT (v : Val) (t : TVal) : Except String Bool :=
  match valNum? v, tvalNum? t with
  | some x, some y => Except.ok (decide (y < x))
  | _, _ =>
    match v, t with
    | Val.str s, TVal.str u => Except.ok (decide (u < s))
    | _, _ => Except.error "'>' not supported between instances"

/-- Python `value <= expected`. -/
def leVT (v : Val) (t : TVal) : Except String Bool :=
  match valNum? v, tvalNum? t with
  | some x, some y => Except.ok (decide (x ≤ y))
  | _, _ =>
    match v, t with
    | Val.str s, TVal.str u => Except.ok (decide (s < u) || s == u)
    | _, _ => Except.error "'<=' not supported between instances"

/-- Python `value >= expected`. -/
def geVT (v : Val) (t : TVal) : Except String Bool :=
  match valNum? v, tvalNum? t with
  | some x, some y => Except.ok (decide (y ≤ x))
  | _, _ =>
    match v, t with
    | Val.str s, TVal.str u => Except.ok (decide (u < s) || s == u)
    | _, _ => Except.error "'>=' not supported between instances"

/-- Python `value == expected` (never raises; values of incomparable kinds are
simply unequal, numbers compare numerically across int/float/bool). -/
def eqVT (v : Val) (t : TVal) : Bool :=
  match valNum? v, tvalNum? t with
  | some x, some y => decide (x = y)
  | _, _ =>
    match v, t with
    | Val.str s, TVal.str u => s == u
    | _, _ => false

/-- Model of `Verifier._evaluate_check`. -/
def evaluate_check (ev : ThresholdEvaluator) (value : Val) :
    Except String (Bool × String) :=
  let expected := ev.value
  let op := ev.operator
  let res : Except String Bool :=
    match op with
    | Op.lt => ltVT value expected
    | Op.gt => gtVT value expected
    | Op.le => leVT value expected
    | Op.ge => geVT value expected
    | Op.eq => Except.ok (eqVT value expected)
    | Op.ne => Except.ok (!eqVT value expected)
  match res with
  | Except.error e => Except.error e
  | Except.ok success =>
    Except.ok (success,
      if success then
        "value " ++ (pyStr value ++ (" " ++ (opStr op ++ (" " ++ tvalStr expected))))
      else
        "value " ++ (pyStr value ++ (" not " ++ (opStr op ++ (" " ++ tvalStr expected)))))

/-- Model of `Verifier._execute_check`: transport request, extraction, type coercion,
evaluation; any raised exception propagates to the caller as `Except.error`. -/
def execute_check (env : Env) (check : Check) (pollNumber idx : Nat) :
    Except String CheckResult :=
  match env.respond pollNumber idx with
  | Except.error e => Except.error e
  | Except.ok response =>
    match extract_value env.find response check.extract.path with
    | Except.error e => Except.error e
    | Except.ok raw =>
      match convert_type raw check.extract.type check.extract.default with
      | Except.error e => Except.error e
      | Except.ok value =>
        match evaluate_check check.evaluate value with
        | Except.error e => Except.error e
        | Except.ok sm =>
          Except.ok { check_name := check.name
                      success := sm.1
                      value := value
                      expected := some (opStr check.evaluate.operator ++
                        (" " ++ tvalStr check.evaluate.value))
                      message := sm.2
                      poll_number := pollNumber }

/-- The `try`/`except` around one check inside `Verifier._execute_poll`:
every exception becomes a failed `CheckResult`. -/
def caught_check (env : Env) (check : Check) (pollNumber idx : Nat) : CheckResult :=
  match execute_check env check pollNumber idx with
  | Except.ok r => r
  | Except.error e =>
    { check_name := check.name
      success := false
      value := Val.null
      expected := Option.none
      message := "Error: " ++ e
      poll_number := pollNumber }

/-- The `for check in self.config.checks` loop of `Verifier._execute_poll`;
`idx` is the position of the check in the configured list (it identifies the
check towards the transport oracle). -/
def execute_poll_aux (env : Env) (pollNumber : Nat) : Nat → List Check → List CheckResult
  | _, [] => []
  | idx, c :: cs => caught_check env c pollNumber idx ::
      execute_poll_aux env pollNumber (idx + 1) cs

/-- Model of `Verifier._execute_poll`. -/
def execute_poll (cfg : VerificationConfig) (env : Env) (pollNumber : Nat) :
    List CheckResult :=
  execute_poll_aux env pollNumber 0 cfg.checks

/-- Model of `Verifier._evaluate_overall`. `min_passed or 1` in the source replaces a
Python-falsy `min_passed` (`None` or `0`) by `1`. The trailing default return
of the source is unreachable because the mode enum is closed. -/
def evaluate_overall (e : EvaluationConfig) (pollResults : List CheckResult) :
    VerificationStatus × String :=
  let passed := pollResults.countP (fun r => r.success)
  let failed := pollResults.length - passed
  match e.mode with
  | EvaluationMode.ALL_PASS =>
    if passed = pollResults.length then
      (VerificationStatus.PASSED, "All checks passed")
    else
      (VerificationStatus.FAILED, toString failed ++ " check(s) failed")
  | EvaluationMode.ANY_PASS =>
    if 0 < passed then
      (VerificationStatus.PASSED, "At least one check passed")
    else
      (VerificationStatus.FAILED, "All checks failed")
  | EvaluationMode.THRESHOLD =>
    let minPassed : Int :=
      match e.min_passed with
      | Option.none => 1
      | some k => if k = 0 then 1 else k
    if minPassed ≤ (passed : Int) then
      (VerificationStatus.PASSED,
        toString passed ++ (" checks passed (>= " ++ (toString minPassed ++ ")")))
    else
      (VerificationStatus.FAILED,
        "Only " ++ (toString passed ++ (" checks passed (need >= " ++
          (toString minPassed ++ ")"))))

/-- Model of `Verifier._get_latest_results`. -/
def get_latest_results (allResults : List CheckResult) (pollCount : Nat) :
    List CheckResult :=
  allResults.filter (fun r => r.poll_number == pollCount)

/-- Model of `Verifier._build_result`: passed/failed counts come from the latest poll
only; the full cumulative list is reported iff `include_details`. -/
def build_result (cfg : VerificationConfig) (status : VerificationStatus)
    (allResults : List CheckResult) (pollCount : Nat) (duration : Int)
    (failureReason : Option String) : VerificationResult :=
  let latest := get_latest_results allResults pollCount
  let passed := latest.countP (fun r => r.success)
  { status := status
    checks_passed := passed
    checks_failed := latest.length - passed
    total_polls := pollCount
    duration := duration
    detailed_results := if cfg.output.include_details then allResults else []
    failure_reason := failureReason }

/-- Lines 89-119 of `Verifier.run`: the code after the polling loop exits
without an in-loop PASSED return. `clock` indexes the `time.time()` call that
computes the final duration. -/
def finalize (cfg : VerificationConfig) (tfn : Nat → Int) (clock : Nat)
    (startTime : Int) (pollCount : Nat) (allResults : List CheckResult) :
    VerificationResult :=
  let duration := tfn clock - startTime
  if allResults.isEmpty then
    build_result cfg VerificationStatus.TIMEOUT allResults pollCount duration
      (some "Timeout before any polls completed")
  else
    let latest := get_latest_results allResults pollCount
    if (evaluate_overall cfg.evaluation latest).1 = VerificationStatus.PASSED then
      build_result cfg VerificationStatus.PASSED allResults pollCount duration
        Option.none
    else
      build_result cfg VerificationStatus.FAILED allResults pollCount duration
        (some ("Checks did not pass within timeout (" ++
          (toString duration ++ "s)")))

/-- The `while time.time() < end_time` loop of `Verifier.run`. Successive
`time.time()` observations consume `env.time` at indices `clock, clock+1, ...`
(loop condition, logged elapsed time, then either the success-path duration or
the sleep decision); `time.sleep` itself is only visible through the next
observation. `fuel` bounds the number of iterations; `none` means the fuel ran
out before the loop terminated. -/
def runLoop (cfg : VerificationConfig) (env : Env) (startTime endTime : Int) :
    Nat → Nat → Nat → List CheckResult → Option VerificationResult
  | 0, _, _, _ => Option.none
  | fuel + 1, clock, pollCount, allResults =>
    if env.time clock < endTime then
      let pc := pollCount + 1
      let pollResults := execute_poll cfg env pc
      let acc := allResults ++ pollResults
      if (evaluate_overall cfg.evaluation pollResults).1 = VerificationStatus.PASSED then
        some (build_result cfg VerificationStatus.PASSED acc pc
          (env.time (clock + 2) - startTime) Option.none)
      else if env.time (clock + 2) + cfg.poll_interval < endTime then
        runLoop cfg env startTime endTime fuel (clock + 3) pc acc
      else
        some (finalize cfg env.time (clock + 3) startTime pc acc)
    else
      some (finalize cfg env.time (clock + 1) startTime pollCount allResults)

/-- Model of `Verifier.run`: `time.time()` call 0 is the start time. -/
def run (cfg : VerificationConfig) (env : Env) (fuel : Nat) :
    Option VerificationResult :=
  let startTime := env.time 0
  runLoop cfg env startTime (startTime + cfg.timeout) fuel 1 0 []

/-- The check names carried by the results of a given poll number inside a
cumulative result list (used to state the per-poll completeness invariant). -/
def pollSlice (l : List CheckResult) (p : Nat) : List String :=
  (l.filter (fun r => r.poll_number == p)).map (fun r => r.check_name)

/-- Standard ordering/equality semantics of the six operators on numbers,
written independently of the evaluator's code. -/
def stdCmpNum : Op → ℚ → ℚ → Bool
  | Op.lt, x, y => decide (x < y)
  | Op.gt, x, y => decide (y < x)
  | Op.le, x, y => decide (x ≤ y)
  | Op.ge, x, y => decide (y ≤ x)
  | Op.eq, x, y => decide (x = y)
  | Op.ne, x, y => decide (x ≠ y)

/-- Standard lexicographic ordering/equality of the six operators on strings. -/
def stdCmpStr : Op → String → String → Bool
  | Op.lt, s, t => decide (s < t)
  | Op.gt, s, t => decide (t < s)
  | Op.le, s, t => decide (s < t) || s == t
  | Op.ge, s, t => decide (t < s) || s == t
  | Op.eq, s, t => s == t
  | Op.ne, s, t => !(s == t)

/-! Concrete test fixtures, used by the witness theorems. -/

/-- A single configured check: `$.v < 10`, extracted as a number. -/
def chk1 : Check :=
  { name := "latency"
    extract := { path := "$.v", type := ExType.number, default := Val.null }
    evaluate := { operator := Op.lt, value := TVal.int 10 } }

/-- One check, ALL_PASS, 1 s interval, 10 s timeout, details included. -/
def cfg1 : VerificationConfig :=
  { checks := [chk1]
    evaluation := { mode := EvaluationMode.ALL_PASS, min_passed := Option.none }
    output := { include_details := true }
    poll_interval := 1
    timeout := 10 }

/-- Same configuration with a zero timeout. -/
def cfgT : VerificationConfig := { cfg1 with timeout := 0 }

/-- Clock ticking one second per observation; the endpoint always answers
`{"v": 5}`; the path matcher returns the first field value of a dict. -/
def envPass : Env :=
  { time := fun n => (n : Int)
    respond := fun _ _ => Except.ok (Val.dict [("v", Val.int 5)])
    find := fun _ d => match d with
      | Val.dict ((_, v) :: _) => [v]
      | _ => [] }

/-- As `envPass` but the endpoint always answers `{"v": 50}` (check fails). -/
def envFail : Env :=
  { envPass with respond := fun _ _ => Except.ok (Val.dict [("v", Val.int 50)]) }

/-- As `envPass` but the transport always raises. -/
def envErr : Env :=
  { envPass with respond := fun _ _ => Except.error "boom" }

/-- As `envPass` but the path never matches. -/
def envMiss : Env :=
  { envPass with find := fun _ _ => [] }

/-- A frozen clock (time never advances past the start). -/
def envZero : Env :=
  { envPass with time := fun _ => 0 }

/-- Placeholder used to name the concrete results of the fixture runs. -/
def dummyResult : VerificationResult :=
  ⟨VerificationStatus.TIMEOUT, 0, 0, 0, 0, [], Option.none⟩

/-- The result of the passing fixture run. -/
def resPass : VerificationResult := (run cfg1 envPass 3).getD dummyResult

/-- The result of the failing fixture run (three polls, then timeout). -/
def resFail : VerificationResult := (run cfg1 envFail 20).getD dummyResult

/-- The result of the zero-timeout fixture run (no poll completes). -/
def resT : VerificationResult := (run cfgT envZero 1).getD dummyResult

/-- Two results of one poll, one passing and one failing. -/
def rsAB : List CheckResult :=
  [⟨"a", true, Val.null, Option.none, "", 1⟩,
   ⟨"b", false, Val.null, Option.none, "", 1⟩]

/-- A one-element cumulative list: poll 1 failed. -/
def accFail : List CheckResult :=
  [⟨"latency", false, Val.float 50, some "< 10", "value 50.0 not < 10", 1⟩]

/-! Theorems. -/

/-- C2: on a non-empty poll, ALL_PASS is PASSED iff every result succeeded,
ANY_PASS iff at least one succeeded, THRESHOLD with `min_passed = k`
(1 ≤ k ≤ number of checks) iff at least `k` succeeded; in every other case the
poll aggregator returns FAILED. -/
theorem evaluate_overall_modes :
    ∀ (m : Option Int) (rs : List CheckResult), rs ≠ [] →
    (((evaluate_overall ⟨EvaluationMode.ALL_PASS, m⟩ rs).1 = VerificationStatus.PASSED ↔
        ∀ r ∈ rs, r.success = true)
    ∧ ((evaluate_overall ⟨EvaluationMode.ANY_PASS, m⟩ rs).1 = VerificationStatus.PASSED ↔
        ∃ r ∈ rs, r.success = true)
    ∧ (∀ k : Int, 1 ≤ k → k ≤ (rs.length : Int) →
        ((evaluate_overall ⟨EvaluationMode.THRESHOLD, some k⟩ rs).1 = VerificationStatus.PASSED ↔
          k ≤ (rs.countP (fun r => r.success) : Int)))
    ∧ (∀ e : EvaluationConfig,
        (evaluate_overall e rs).1 = VerificationStatus.PASSED ∨
        (evaluate_overall e rs).1 = VerificationStatus.FAILED)) := by
  intro m rs _
  refine ⟨?_, ?_, ?_, ?_⟩
  · rw [show (evaluate_overall ⟨EvaluationMode.ALL_PASS, m⟩ rs).1 =
        VerificationStatus.PASSED ↔ rs.countP (fun r => r.success) = rs.length from ?_,
      List.countP_eq_length]
    unfold evaluate_overall
    dsimp only
    split <;> simp_all
  · rw [show (evaluate_overall ⟨EvaluationMode.ANY_PASS, m⟩ rs).1 =
        VerificationStatus.PASSED ↔ 0 < rs.countP (fun r => r.success) from ?_,
      List.countP_pos_iff]
    unfold evaluate_overall
    dsimp only
    split <;> simp_all
  · intro k hk1 _
    have hk0 : ¬(k = 0) := by omega
    unfold evaluate_overall
    simp only [hk0, if_false]
    split <;> simp_all
  · intro e
    unfold evaluate_overall
    rcases e.mode <;> dsimp only <;> split <;> simp

/-- Witness for C2 at a concrete two-result poll. -/
theorem evaluate_overall_modes_witness :
    rsAB ≠ [] ∧
    (((evaluate_overall ⟨EvaluationMode.ALL_PASS, Option.none⟩ rsAB).1 =
        VerificationStatus.PASSED ↔ ∀ r ∈ rsAB, r.success = true)
    ∧ ((evaluate_overall ⟨EvaluationMode.ANY_PASS, Option.none⟩ rsAB).1 =
        VerificationStatus.PASSED ↔ ∃ r ∈ rsAB, r.success = true)
    ∧ (∀ k : Int, 1 ≤ k → k ≤ (rsAB.length : Int) →
        ((evaluate_overall ⟨EvaluationMode.THRESHOLD, some k⟩ rsAB).1 =
          VerificationStatus.PASSED ↔ k ≤ (rsAB.countP (fun r => r.success) : Int)))
    ∧ (∀ e : EvaluationConfig,
        (evaluate_overall e rsAB).1 = VerificationStatus.PASSED ∨
        (evaluate_overall e rsAB).1 = VerificationStatus.FAILED)) :=
  ⟨by simp [rsAB], evaluate_overall_modes Option.none rsAB (by simp [rsAB])⟩

/-- C10: on an empty result list the aggregator returns PASSED under ALL_PASS
(vacuously) but FAILED under ANY_PASS and THRESHOLD (for any validated
`min_passed`). -/
theorem evaluate_overall_empty :
    ∀ (m : Option Int),
    ((evaluate_overall ⟨EvaluationMode.ALL_PASS, m⟩ []).1 = VerificationStatus.PASSED)
    ∧ ((evaluate_overall ⟨EvaluationMode.ANY_PASS, m⟩ []).1 = VerificationStatus.FAILED)
    ∧ ((evaluate_overall ⟨EvaluationMode.THRESHOLD, Option.none⟩ []).1 =
        VerificationStatus.FAILED)
    ∧ (∀ k : Int, 1 ≤ k →
        (evaluate_overall ⟨EvaluationMode.THRESHOLD, some k⟩ []).1 =
          VerificationStatus.FAILED) := by
  intro m
  refine ⟨rfl, rfl, rfl, ?_⟩
  intro k hk
  have hk0 : ¬(k = 0) := by omega
  unfold evaluate_overall
  simp only [hk0, if_false]
  have : ¬((k : Int) ≤ (([] : List CheckResult).countP (fun r => r.success) : Int)) := by
    simp only [List.countP_nil, Nat.cast_zero]; omega
  rw [if_neg this]

/-- Witness for C10 at `min_passed = 1`. -/
theorem evaluate_overall_empty_witness :
    (1 : Int) ≤ 1 ∧
    (evaluate_overall ⟨EvaluationMode.THRESHOLD, some 1⟩ []).1 =
      VerificationStatus.FAILED :=
  ⟨by decide, (evaluate_overall_empty Option.none).2.2.2 1 (by decide)⟩

/-- C8 counterexample: the code lowercases the string before the comparison,
so the string `"False"` — which is none of the literal forms `"false"`, `"0"`,
`""` — is still coerced to `false`, where the claim predicts `true`. -/
theorem boolean_coercion_counterexample :
    convert_type (Val.str "False") ExType.boolean Val.null =
      Except.ok (Val.bool false)
    ∧ ("False" ≠ "false" ∧ "False" ≠ "0" ∧ "False" ≠ "") :=
  ⟨rfl, by decide⟩

/-- C8 amended: boolean coercion passes booleans through; maps a string to
`false` exactly when its lowercased form is `"false"`, `"0"` or empty (i.e.
case-insensitively), `true` for every other string; and maps a value of any
other type via Python's standard truthiness. -/
theorem boolean_coercion_amended :
    ∀ (d : Val),
    ((∀ b, convert_type (Val.bool b) ExType.boolean d = Except.ok (Val.bool b))
    ∧ (∀ s, convert_type (Val.str s) ExType.boolean d = Except.ok (Val.bool
        (!(pyLower s == "false" || pyLower s == "0" || pyLower s == ""))))
    ∧ (convert_type Val.null ExType.boolean d = Except.ok (Val.bool false))
    ∧ (∀ n, convert_type (Val.int n) ExType.boolean d =
        Except.ok (Val.bool (decide (n ≠ 0))))
    ∧ (∀ q, convert_type (Val.float q) ExType.boolean d =
        Except.ok (Val.bool (decide (q ≠ 0))))
    ∧ (∀ xs, convert_type (Val.list xs) ExType.boolean d =
        Except.ok (Val.bool (!xs.isEmpty)))
    ∧ (∀ xs, convert_type (Val.dict xs) ExType.boolean d =
        Except.ok (Val.bool (!xs.isEmpty)))) :=
  fun _ => ⟨fun _ => rfl, fun _ => rfl, rfl, fun _ => rfl, fun _ => rfl,
    fun _ => rfl, fun _ => rfl⟩

/-- The evaluator's message is built from the fixed template, whatever the
comparison outcome was (helper for C9). -/
theorem evaluate_check_message_shape (res : Except String Bool) (A B : String)
    (b : Bool) (m : String)
    (h : (match res with
          | Except.error e => Except.error e
          | Except.ok success => Except.ok (success, if success then A else B)) =
        Except.ok (b, m)) :
    m = if b then A else B := by
  cases res with
  | error e => cases h
  | ok s =>
    simp only [Except.ok.injEq, Prod.mk.injEq] at h
    rcases h with ⟨rfl, rfl⟩
    rfl

/-- C9: for numeric value/comparison pairs and for string pairs, the threshold
evaluator's success flag is the standard ordering/equality semantics of the
operator, and the message is exactly `value {v} {op} {expected}` on success
and `value {v} not {op} {expected}` on failure. -/
theorem evaluate_check_operators :
    ((∀ (op : Op) (x y : ℚ), ∃ msg,
        evaluate_check ⟨op, TVal.float y⟩ (Val.float x) =
          Except.ok (stdCmpNum op x y, msg))
    ∧ (∀ (op : Op) (x : ℚ) (n : Int), ∃ msg,
        evaluate_check ⟨op, TVal.int n⟩ (Val.float x) =
          Except.ok (stdCmpNum op x (n : ℚ), msg))
    ∧ (∀ (op : Op) (s t : String), ∃ msg,
        evaluate_check ⟨op, TVal.str t⟩ (Val.str s) =
          Except.ok (stdCmpStr op s t, msg))
    ∧ (∀ (ev : ThresholdEvaluator) (v : Val) (b : Bool) (m : String),
        evaluate_check ev v = Except.ok (b, m) →
        m = if b then
            "value " ++ (pyStr v ++ (" " ++ (opStr ev.operator ++
              (" " ++ tvalStr ev.value))))
          else
            "value " ++ (pyStr v ++ (" not " ++ (opStr ev.operator ++
              (" " ++ tvalStr ev.value)))))) := by
  refine ⟨?_, ?_, ?_, ?_⟩
  · intro op x y
    cases op <;> (simp only [stdCmpNum, decide_not]; exact ⟨_, rfl⟩)
  · intro op x n
    cases op <;> (simp only [stdCmpNum, decide_not]; exact ⟨_, rfl⟩)
  · intro op s t
    cases op <;> (simp only [stdCmpStr, decide_not]; exact ⟨_, rfl⟩)
  · intro ev v b m h
    exact evaluate_check_message_shape _ _ _ _ _ h

/-- Witness for C9: `5.0 < 10` succeeds with the success-template message. -/
theorem evaluate_check_operators_witness :
    evaluate_check ⟨Op.lt, TVal.int 10⟩ (Val.float 5) =
      Except.ok (true, "value 5.0 < 10")
    ∧ "value 5.0 < 10" = if true then
        "value " ++ (pyStr (Val.float 5) ++ (" " ++ (opStr Op.lt ++
          (" " ++ tvalStr (TVal.int 10)))))
      else
        "value " ++ (pyStr (Val.float 5) ++ (" not " ++ (opStr Op.lt ++
          (" " ++ tvalStr (TVal.int 10)))))  :=
  ⟨rfl, evaluate_check_operators.2.2.2 ⟨Op.lt, TVal.int 10⟩ (Val.float 5) true
    "value 5.0 < 10" rfl⟩

/-- C7: when the conversion body fails, a configured (non-`None`) default is
returned in place of the failure; with no default the conversion raises, and
the caller turns any raised per-check error into a failed check result instead
of letting it abort the run. -/
theorem convert_type_default_fallback :
    ∀ (v : Val) (ty : ExType) (e : String),
    convertAttempt v ty = Except.error e →
    ((∀ d : Val, d ≠ Val.null → convert_type v ty d = Except.ok d)
    ∧ convert_type v ty Val.null = Except.error
        ("Cannot convert '" ++ pyStr v ++ "' to " ++ tyStr ty ++
          " and no default provided")
    ∧ (∀ (env : Env) (c : Check) (p i : Nat) (e' : String),
        execute_check env c p i = Except.error e' →
        (caught_check env c p i).success = false
        ∧ (caught_check env c p i).message = "Error: " ++ e')) := by
  intro v ty e h
  refine ⟨?_, ?_, ?_⟩
  · intro d hd
    unfold convert_type
    rw [h]
    cases d with
    | null => exact absurd rfl hd
    | bool b => rfl
    | int n => rfl
    | float q => rfl
    | str s => rfl
    | list xs => rfl
    | dict xs => rfl
  · unfold convert_type
    rw [h]
  · intro env c p i e' h'
    unfold caught_check
    rw [h']
    exact ⟨rfl, rfl⟩

/-- Witness for C7: `float(None)` fails; default `1.0` is substituted, and
with no default the conversion raises the documented error. -/
theorem convert_type_default_fallback_witness :
    convertAttempt Val.null ExType.number =
      Except.error ("could not convert to float: 'None'")
    ∧ Val.float 1 ≠ Val.null
    ∧ convert_type Val.null ExType.number (Val.float 1) = Except.ok (Val.float 1)
    ∧ convert_type Val.null ExType.number Val.null = Except.error
        ("Cannot convert 'None' to number and no default provided")
    ∧ execute_check envErr chk1 1 0 = Except.error "boom"
    ∧ (caught_check envErr chk1 1 0).success = false
    ∧ (caught_check envErr chk1 1 0).message = "Error: boom" := by
  have h := convert_type_default_fallback Val.null ExType.number
    ("could not convert to float: 'None'") rfl
  have hd : Val.float 1 ≠ Val.null := fun hh => Val.noConfusion hh
  exact ⟨rfl, hd, h.1 (Val.float 1) hd, h.2.1.trans (by rfl),
    rfl, (h.2.2 envErr chk1 1 0 "boom" rfl).1, (h.2.2 envErr chk1 1 0 "boom" rfl).2⟩

/-- C6: extraction with zero matches fails with a message carrying the path
and the rendered document, and the per-check pipeline turns that failure into
a failed check result whose message carries the path; with one or more matches
extraction deterministically returns the first match in document order. -/
theorem extract_value_matches :
    ∀ (find : String → Val → List Val) (data : Val) (path : String),
    ((find path data = [] →
        ∃ msg, extract_value find data path = Except.error msg
          ∧ path.data <:+: msg.data ∧ (pyStr data).data <:+: msg.data)
    ∧ (∀ (m : Val) (rest : List Val), find path data = m :: rest →
        extract_value find data path = Except.ok m)
    ∧ (∀ (env : Env) (c : Check) (p i : Nat) (doc : Val),
        env.respond p i = Except.ok doc →
        env.find c.extract.path doc = [] →
        (caught_check env c p i).success = false
        ∧ c.extract.path.data <:+: (caught_check env c p i).message.data)) := by
  intro find data path
  refine ⟨?_, ?_, ?_⟩
  · intro h
    refine ⟨_, by rw [extract_value, h], ?_, ?_⟩
    · exact ⟨"Failed to extract value using JSONPath '".data,
        ("': JSONPath '" ++ (path ++ ("' found no matches in response: " ++
          pyStr data))).data, by simp⟩
    · exact ⟨("Failed to extract value using JSONPath '" ++ (path ++
        ("': JSONPath '" ++ (path ++ "' found no matches in response: ")))).data,
        [], by simp⟩
  · intro m rest h
    rw [extract_value, h]
  · intro env c p i doc hresp hfind
    have he : execute_check env c p i = Except.error
        ("Failed to extract value using JSONPath '" ++ (c.extract.path ++
          ("': JSONPath '" ++ (c.extract.path ++
          ("' found no matches in response: " ++ pyStr doc))))) := by
      unfold execute_check
      rw [hresp]
      dsimp only
      rw [extract_value.eq_def, hfind]
    refine ⟨?_, ?_⟩
    · unfold caught_check
      rw [he]
    · unfold caught_check
      rw [he]
      exact ⟨"Error: Failed to extract value using JSONPath '".data,
        ("': JSONPath '" ++ (c.extract.path ++
          ("' found no matches in response: " ++ pyStr doc))).data, by simp⟩

/-- Witness for C6: a run against a document the path never matches. -/
theorem extract_value_matches_witness :
    envMiss.find chk1.extract.path (Val.dict [("v", Val.int 5)]) = [] ∧
    envMiss.respond 1 0 = Except.ok (Val.dict [("v", Val.int 5)]) ∧
    ((caught_check envMiss chk1 1 0).success = false
     ∧ chk1.extract.path.data <:+: (caught_check envMiss chk1 1 0).message.data) :=
  ⟨rfl, rfl, (extract_value_matches envMiss.find (Val.dict [("v", Val.int 5)])
    chk1.extract.path).2.2 envMiss chk1 1 0 (Val.dict [("v", Val.int 5)]) rfl rfl⟩

/-- Each iteration of the poll loop appends exactly one result (helper). -/
theorem execute_poll_aux_length (env : Env) (p : Nat) :
    ∀ (cs : List Check) (k : Nat), (execute_poll_aux env p k cs).length = cs.length := by
  intro cs
  induction cs with
  | nil => intro k; rfl
  | cons c cs ih => intro k; simp [execute_poll_aux, ih (k + 1)]

/-- The `i`-th result of a poll is the caught execution of the `i`-th check
(helper). -/
theorem execute_poll_aux_get (env : Env) (p : Nat) :
    ∀ (cs : List Check) (k i : Nat),
    (execute_poll_aux env p k cs)[i]? =
      (cs[i]?).map (fun c => caught_check env c p (k + i)) := by
  intro cs
  induction cs with
  | nil => intro k i; simp [execute_poll_aux]
  | cons c cs ih =>
    intro k i
    cases i with
    | zero => simp [execute_poll_aux]
    | succ j =>
      have harith : k + 1 + j = k + (j + 1) := by omega
      simp [execute_poll_aux, ih (k + 1) j, harith]

/-- C3: a poll produces exactly one `CheckResult` per configured check, and a
check whose pipeline raises at any stage yields (at its own position) a result
with `success = false`, `value = null` and message `Error: <details>` instead
of propagating the error. -/
theorem execute_poll_one_result_per_check :
    ∀ (cfg : VerificationConfig) (env : Env) (p : Nat),
    ((execute_poll cfg env p).length = cfg.checks.length
    ∧ ∀ (i : Nat) (c : Check) (e : String), cfg.checks[i]? = some c →
        execute_check env c p i = Except.error e →
        (execute_poll cfg env p)[i]? = some
          { check_name := c.name, success := false, value := Val.null,
            expected := Option.none, message := "Error: " ++ e,
            poll_number := p }) := by
  intro cfg env p
  refine ⟨execute_poll_aux_length env p cfg.checks 0, ?_⟩
  intro i c e hc he
  rw [execute_poll, execute_poll_aux_get env p cfg.checks 0 i, hc]
  simp [caught_check, he]

/-- Witness for C3: a transport error becomes a failed result. -/
theorem execute_poll_one_result_per_check_witness :
    cfg1.checks[0]? = some chk1
    ∧ execute_check envErr chk1 1 0 = Except.error "boom"
    ∧ (execute_poll cfg1 envErr 1)[0]? = some
        { check_name := chk1.name, success := false, value := Val.null,
          expected := Option.none, message := "Error: " ++ "boom",
          poll_number := 1 } :=
  ⟨rfl, rfl, (execute_poll_one_result_per_check cfg1 envErr 1).2 0 chk1 "boom"
    rfl rfl⟩

/-- C1: when the loop exits without an in-loop PASSED return and at least one
poll completed, the final result re-evaluates only the last completed poll's
results (those whose poll number equals the total poll count): PASSED if that
re-evaluation passes, otherwise FAILED with the timeout reason; and every
built result counts passed/failed from the last poll only while keeping every
poll's results in the detailed list. -/
theorem final_result_from_last_poll :
    ∀ (cfg : VerificationConfig) (tfn : Nat → Int) (clock : Nat) (st : Int)
      (pc : Nat) (acc : List CheckResult), acc ≠ [] →
    ((get_latest_results acc pc = acc.filter (fun r => r.poll_number == pc))
    ∧ ((evaluate_overall cfg.evaluation (get_latest_results acc pc)).1 =
          VerificationStatus.PASSED →
        (finalize cfg tfn clock st pc acc).status = VerificationStatus.PASSED
        ∧ (finalize cfg tfn clock st pc acc).failure_reason = Option.none)
    ∧ ((evaluate_overall cfg.evaluation (get_latest_results acc pc)).1 ≠
          VerificationStatus.PASSED →
        (finalize cfg tfn clock st pc acc).status = VerificationStatus.FAILED
        ∧ (finalize cfg tfn clock st pc acc).failure_reason =
            some ("Checks did not pass within timeout (" ++
              (toString (tfn clock - st) ++ "s)")))
    ∧ (finalize cfg tfn clock st pc acc).total_polls = pc
    ∧ (finalize cfg tfn clock st pc acc).checks_passed =
        (get_latest_results acc pc).countP (fun r => r.success)
    ∧ (finalize cfg tfn clock st pc acc).checks_failed =
        (get_latest_results acc pc).length -
          (get_latest_results acc pc).countP (fun r => r.success)
    ∧ (cfg.output.include_details = true →
        (finalize cfg tfn clock st pc acc).detailed_results = acc)
    ∧ (∀ (status : VerificationStatus) (l : List CheckResult) (n : Nat)
          (d : Int) (fr : Option String),
        (build_result cfg status l n d fr).checks_passed =
          (get_latest_results l n).countP (fun r => r.success)
        ∧ (build_result cfg status l n d fr).checks_failed =
          (get_latest_results l n).length -
            (get_latest_results l n).countP (fun r => r.success)
        ∧ (cfg.output.include_details = true →
            (build_result cfg status l n d fr).detailed_results = l))) := by
  intro cfg tfn clock st pc acc hne
  have h0 : acc.isEmpty = false := by
    cases acc with
    | nil => exact absurd rfl hne
    | cons a l => rfl
  refine ⟨rfl, ?_, ?_, ?_, ?_, ?_, ?_, ?_⟩
  · intro hp
    simp [finalize, h0, hp, build_result]
  · intro hp
    simp [finalize, h0, build_result, if_neg hp]
  · simp only [finalize, h0, Bool.false_eq_true, if_false]
    split <;> rfl
  · simp only [finalize, h0, Bool.false_eq_true, if_false]
    split <;> rfl
  · simp only [finalize, h0, Bool.false_eq_true, if_false]
    split <;> rfl
  · intro hd
    simp only [finalize, h0, Bool.false_eq_true, if_false]
    split <;> simp [build_result, hd]
  · intro status l n d fr
    exact ⟨rfl, rfl, fun hd => by simp [build_result, hd]⟩

/-- Witness for C1: a one-poll cumulative list whose only poll failed. -/
theorem final_result_from_last_poll_witness :
    accFail ≠ [] ∧
    (evaluate_overall cfg1.evaluation (get_latest_results accFail 1)).1 ≠
      VerificationStatus.PASSED ∧
    (finalize cfg1 (fun n => (n : Int)) 4 0 1 accFail).status =
      VerificationStatus.FAILED ∧
    (finalize cfg1 (fun n => (n : Int)) 4 0 1 accFail).failure_reason =
      some "Checks did not pass within timeout (4s)" ∧
    (finalize cfg1 (fun n => (n : Int)) 4 0 1 accFail).checks_passed = 0 ∧
    (finalize cfg1 (fun n => (n : Int)) 4 0 1 accFail).checks_failed = 1 ∧
    (finalize cfg1 (fun n => (n : Int)) 4 0 1 accFail).detailed_results = accFail := by
  have h := final_result_from_last_poll cfg1 (fun n => (n : Int)) 4 0 1 accFail
    (List.cons_ne_nil _ _)
  have hne : (evaluate_overall cfg1.evaluation (get_latest_results accFail 1)).1 ≠
      VerificationStatus.PASSED := by decide
  exact ⟨List.cons_ne_nil _ _, hne, (h.2.2.1 hne).1,
    (h.2.2.1 hne).2.trans (by rfl),
    (h.2.2.2.2.1).trans (by rfl),
    (h.2.2.2.2.2.1).trans (by rfl),
    h.2.2.2.2.2.2.1 rfl⟩

/-- With a non-empty check list a poll always yields results (helper). -/
theorem execute_poll_ne_nil (cfg : VerificationConfig) (env : Env) (p : Nat)
    (h : cfg.checks ≠ []) : execute_poll cfg env p ≠ [] := by
  unfold execute_poll
  cases hc : cfg.checks with
  | nil => exact absurd hc h
  | cons c cs => simp [execute_poll_aux]

/-- After loop exit, the result is TIMEOUT exactly when nothing accumulated,
and then carries the fixed reason (helper for C4). -/
theorem finalize_timeout_char (cfg : VerificationConfig) (tfn : Nat → Int)
    (clock : Nat) (st : Int) (pc : Nat) (acc : List CheckResult)
    (hinv : acc = [] ↔ pc = 0) :
    (((finalize cfg tfn clock st pc acc).status = VerificationStatus.TIMEOUT ↔
        (finalize cfg tfn clock st pc acc).total_polls = 0)
    ∧ ((finalize cfg tfn clock st pc acc).status = VerificationStatus.TIMEOUT →
        (finalize cfg tfn clock st pc acc).failure_reason =
          some "Timeout before any polls completed")) := by
  cases acc with
  | nil =>
    have hpc : pc = 0 := hinv.mp rfl
    subst hpc
    exact ⟨by simp [finalize, build_result], fun _ => rfl⟩
  | cons a l =>
    have hpc : pc ≠ 0 := fun h => List.cons_ne_nil a l (hinv.mpr h)
    constructor
    · simp only [finalize, List.isEmpty_cons, Bool.false_eq_true, if_false]
      split <;> simp [build_result, hpc]
    · simp only [finalize, List.isEmpty_cons, Bool.false_eq_true, if_false]
      split <;> simp [build_result]

/-- Loop induction for C4: assuming the accumulator is empty exactly when no
poll has run, the loop's result is TIMEOUT iff its total poll count is zero. -/
theorem runLoop_timeout_char (cfg : VerificationConfig) (env : Env)
    (st et : Int) :
    ∀ (fuel clock pc : Nat) (acc : List CheckResult) (r : VerificationResult),
    cfg.checks ≠ [] → (acc = [] ↔ pc = 0) →
    runLoop cfg env st et fuel clock pc acc = some r →
    ((r.status = VerificationStatus.TIMEOUT ↔ r.total_polls = 0)
    ∧ (r.status = VerificationStatus.TIMEOUT →
        r.failure_reason = some "Timeout before any polls completed")) := by
  intro fuel
  induction fuel with
  | zero =>
    intro clock pc acc r _ _ hr
    simp [runLoop] at hr
  | succ n ih =>
    intro clock pc acc r hck hinv hr
    rw [runLoop] at hr
    split at hr
    · dsimp only at hr
      by_cases hpass : (evaluate_overall cfg.evaluation
          (execute_poll cfg env (pc + 1))).1 = VerificationStatus.PASSED
      · rw [if_pos hpass] at hr
        injection hr with hr
        subst hr
        simp [build_result]
      · rw [if_neg hpass] at hr
        by_cases hnext : env.time (clock + 2) + cfg.poll_interval < et
        · rw [if_pos hnext] at hr
          refine ih (clock + 3) (pc + 1) _ r hck ?_ hr
          constructor
          · intro h
            exact absurd (List.append_eq_nil.mp h).2
              (execute_poll_ne_nil cfg env (pc + 1) hck)
          · omega
        · rw [if_neg hnext] at hr
          injection hr with hr
          subst hr
          refine finalize_timeout_char cfg env.time (clock + 3) st (pc + 1) _ ?_
          constructor
          · intro h
            exact absurd (List.append_eq_nil.mp h).2
              (execute_poll_ne_nil cfg env (pc + 1) hck)
          · omega
    · injection hr with hr
      subst hr
      exact finalize_timeout_char cfg env.time (clock + 1) st pc acc hinv

/-- C4: the run returns TIMEOUT — with reason
`Timeout before any polls completed` — iff zero polls completed, and the
per-poll aggregator itself never returns TIMEOUT. -/
theorem timeout_iff_no_polls :
    ((∀ (e : EvaluationConfig) (rs : List CheckResult),
        (evaluate_overall e rs).1 = VerificationStatus.PASSED ∨
        (evaluate_overall e rs).1 = VerificationStatus.FAILED)
    ∧ (∀ (cfg : VerificationConfig) (env : Env) (fuel : Nat)
          (r : VerificationResult),
        cfg.checks ≠ [] → run cfg env fuel = some r →
        ((r.status = VerificationStatus.TIMEOUT ↔ r.total_polls = 0)
        ∧ (r.status = VerificationStatus.TIMEOUT →
            r.failure_reason = some "Timeout before any polls completed")))) := by
  constructor
  · intro e rs
    unfold evaluate_overall
    rcases e.mode <;> dsimp only <;> split <;> simp
  · intro cfg env fuel r hck hr
    exact runLoop_timeout_char cfg env (env.time 0) (env.time 0 + cfg.timeout)
      fuel 1 0 [] r hck (iff_of_true rfl rfl) hr

/-- Witness for C4: a zero-second timeout lets no poll complete. -/
theorem timeout_iff_no_polls_witness :
    cfgT.checks ≠ [] ∧
    run cfgT envZero 1 = some resT ∧
    ((resT.status = VerificationStatus.TIMEOUT ↔ resT.total_polls = 0)
    ∧ (resT.status = VerificationStatus.TIMEOUT →
        resT.failure_reason = some "Timeout before any polls completed")) :=
  ⟨List.cons_ne_nil _ _, rfl,
    timeout_iff_no_polls.2 cfgT envZero 1 resT (List.cons_ne_nil _ _) rfl⟩

/-- A successfully executed check is tagged with its poll number and its
check's name (helper). -/
theorem execute_check_ok_fields (env : Env) (c : Check) (p i : Nat)
    (r : CheckResult) (h : execute_check env c p i = Except.ok r) :
    r.poll_number = p ∧ r.check_name = c.name := by
  unfold execute_check at h
  repeat' split at h
  all_goals cases h
  all_goals exact ⟨rfl, rfl⟩

/-- Every result of a poll carries the poll's number and its check's name
(helper). -/
theorem caught_check_fields (env : Env) (c : Check) (p i : Nat) :
    (caught_check env c p i).poll_number = p
    ∧ (caught_check env c p i).check_name = c.name := by
  unfold caught_check
  cases h : execute_check env c p i with
  | error e => exact ⟨rfl, rfl⟩
  | ok r => exact execute_check_ok_fields env c p i r h

/-- Filtering a concatenation by poll number splits (helper). -/
theorem pollSlice_append (a b : List CheckResult) (p : Nat) :
    pollSlice (a ++ b) p = pollSlice a p ++ pollSlice b p := by
  simp [pollSlice, List.filter_append]

/-- Unfolding one result in a slice (helper). -/
theorem pollSlice_cons (x : CheckResult) (l : List CheckResult) (p : Nat) :
    pollSlice (x :: l) p =
      if x.poll_number == p then x.check_name :: pollSlice l p
      else pollSlice l p := by
  simp only [pollSlice, List.filter_cons]
  split <;> simp

/-- The slice of one executed poll at number `p` is the full configured name
list when `p` is that poll's number, and empty otherwise (helper). -/
theorem pollSlice_execute_poll (cfg : VerificationConfig) (env : Env)
    (q p : Nat) :
    pollSlice (execute_poll cfg env q) p =
      if p = q then cfg.checks.map Check.name else [] := by
  unfold execute_poll
  suffices h : ∀ (cs : List Check) (k : Nat),
      pollSlice (execute_poll_aux env q k cs) p =
        if p = q then cs.map Check.name else [] from h cfg.checks 0
  intro cs
  induction cs with
  | nil => intro k; simp [execute_poll_aux, pollSlice]
  | cons c cs ih =>
    intro k
    obtain ⟨hpn, hcn⟩ := caught_check_fields env c q k
    simp only [execute_poll_aux]
    rw [pollSlice_cons, hpn, ih (k + 1), hcn]
    by_cases hpq : p = q
    · subst hpq
      simp
    · have hqp : (q == p) = false := beq_eq_false_iff_ne.mpr fun h => hpq h.symm
      rw [hqp]
      simp [hpq]

/-- The loop-exit result reports the accumulated list (when details are on)
and the final poll count, whatever the status branch (helper). -/
theorem finalize_fields (cfg : VerificationConfig) (tfn : Nat → Int)
    (clock : Nat) (st : Int) (pc : Nat) (acc : List CheckResult)
    (hdet : cfg.output.include_details = true) :
    (finalize cfg tfn clock st pc acc).total_polls = pc
    ∧ (finalize cfg tfn clock st pc acc).detailed_results = acc := by
  constructor
  · unfold finalize
    split
    · rfl
    · dsimp only
      split <;> rfl
  · unfold finalize
    split
    · simp [build_result, hdet]
    · dsimp only
      split <;> simp [build_result, hdet]

/-- Loop induction for C5: if the accumulator holds exactly one result per
configured check for every poll number `1..pc` (and nothing else), the final
result's detailed list does so for every poll number up to the total count. -/
theorem runLoop_slices (cfg : VerificationConfig) (env : Env) (st et : Int) :
    ∀ (fuel clock pc : Nat) (acc : List CheckResult) (r : VerificationResult),
    cfg.output.include_details = true →
    (∀ p, pollSlice acc p =
      if 1 ≤ p ∧ p ≤ pc then cfg.checks.map Check.name else []) →
    runLoop cfg env st et fuel clock pc acc = some r →
    (∀ p, pollSlice r.detailed_results p =
      if 1 ≤ p ∧ p ≤ r.total_polls then cfg.checks.map Check.name else []) := by
  intro fuel
  induction fuel with
  | zero =>
    intro clock pc acc r _ _ hr
    simp [runLoop] at hr
  | succ n ih =>
    intro clock pc acc r hdet hinv hr
    have hinv' : ∀ p, pollSlice (acc ++ execute_poll cfg env (pc + 1)) p =
        if 1 ≤ p ∧ p ≤ pc + 1 then cfg.checks.map Check.name else [] := by
      intro p
      rw [pollSlice_append, hinv p, pollSlice_execute_poll]
      by_cases h1 : 1 ≤ p ∧ p ≤ pc
      · rw [if_pos h1, if_neg (by omega), if_pos (by omega), List.append_nil]
      · rw [if_neg h1]
        by_cases h2 : p = pc + 1
        · rw [if_pos h2, if_pos (by omega), List.nil_append]
        · rw [if_neg h2, if_neg (by omega), List.append_nil]
    rw [runLoop] at hr
    split at hr
    · dsimp only at hr
      by_cases hpass : (evaluate_overall cfg.evaluation
          (execute_poll cfg env (pc + 1))).1 = VerificationStatus.PASSED
      · rw [if_pos hpass] at hr
        injection hr with hr
        subst hr
        intro p
        simpa [build_result, hdet] using hinv' p
      · rw [if_neg hpass] at hr
        by_cases hnext : env.time (clock + 2) + cfg.poll_interval < et
        · rw [if_pos hnext] at hr
          exact ih (clock + 3) (pc + 1) _ r hdet hinv' hr
        · rw [if_neg hnext] at hr
          injection hr with hr
          subst hr
          intro p
          obtain ⟨htot, hres⟩ := finalize_fields cfg env.time (clock + 3) st
            (pc + 1) (acc ++ execute_poll cfg env (pc + 1)) hdet
          rw [htot, hres]
          exact hinv' p
    · injection hr with hr
      subst hr
      intro p
      obtain ⟨htot, hres⟩ := finalize_fields cfg env.time (clock + 1) st pc
        acc hdet
      rw [htot, hres]
      exact hinv p

/-- C5: in every completed run that reports details, the cumulative result
list holds (for each poll number from 1 up to the total poll count) exactly
one entry per configured check, in configuration order, and holds no result
tagged with any other poll number. -/
theorem poll_numbers_contiguous_complete :
    ∀ (cfg : VerificationConfig) (env : Env) (fuel : Nat)
      (r : VerificationResult),
    run cfg env fuel = some r → cfg.output.include_details = true →
    ∀ p, pollSlice r.detailed_results p =
      if 1 ≤ p ∧ p ≤ r.total_polls then cfg.checks.map Check.name else [] := by
  intro cfg env fuel r hr hdet
  refine runLoop_slices cfg env (env.time 0) (env.time 0 + cfg.timeout) fuel
    1 0 [] r hdet ?_ hr
  intro p
  rw [if_neg (by omega)]
  simp [pollSlice]

/-- Witness for C5: in the three-poll failing fixture run, poll numbers 1-3
each carry exactly the configured check and nothing else does. -/
theorem poll_numbers_contiguous_complete_witness :
    run cfg1 envFail 20 = some resFail ∧
    cfg1.output.include_details = true ∧
    resFail.total_polls = 3 ∧
    pollSlice resFail.detailed_results 1 = ["latency"] ∧
    pollSlice resFail.detailed_results 3 = ["latency"] ∧
    pollSlice resFail.detailed_results 0 = [] ∧
    pollSlice resFail.detailed_results 4 = [] := by
  have h := poll_numbers_contiguous_complete cfg1 envFail 20 resFail rfl rfl
  refine ⟨rfl, rfl, rfl, ?_, ?_, ?_, ?_⟩
  · rw [h 1]; decide
  · rw [h 3]; decide
  · rw [h 0]; decide
  · rw [h 4]; decide

end CV
